import Mathlib

/-!
Formal model of the workout-generator HTTP service (Express/Node.js), embedded
shallowly in Lean. Pure helpers of the source (shuffleArray, getAllExercises,
the filter pipelines) become Lean functions on lists; the in-memory globals
(customExercises, favorites, workoutHistory) become an explicit ServerState
threaded through the handler functions; Math.random() is modelled by an
externally supplied stream of natural numbers, reduced modulo the required
bound exactly where the source multiplies by the bound and floors.

Source of authority: the v5 server (src/unnamed/part_001); the older
revisions (src/server.js, src/unnamed/part_000) contain strict subsets of the
same handler bodies.
-/

namespace WorkoutApi

/-! ## Sampler: Fisher-Yates shuffle (function shuffleArray, part_001 lines 121-128)

The JS loop runs i from length-1 down to 1 and swaps shuffled[i] with
shuffled[j] where j = Math.floor(Math.random() * (i + 1)), i.e. a uniformly
drawn index in [0, i]. We model the random draws by a function
rand : Nat -> Nat; the draw at loop index i is rand i % (i + 1), which ranges
over [0, i] exactly as the source expression does. -/

/-- Swap of the elements at positions i and j of a list, as performed by the
destructuring assignment in the source; out-of-range indices leave the list
unchanged (the shuffle loop only ever uses in-range indices). -/
def listSwap {α : Type} (l : List α) (i j : Nat) : List α :=
  if h : i < l.length ∧ j < l.length then
    (l.set i (l.get ⟨j, h.2⟩)).set j (l.get ⟨i, h.1⟩)
  else l

/-- Descending loop of the Fisher-Yates shuffle: argument i is the current
loop counter; the loop body swaps positions i and rand i % (i + 1) and the
loop stops once i reaches 0. -/
def fyLoop {α : Type} (rand : Nat → Nat) : Nat → List α → List α
  | 0, l => l
  | i + 1, l => fyLoop rand i (listSwap l (i + 1) (rand (i + 1) % (i + 2)))

/-- Model of shuffleArray: copy the input (lists are immutable here, so the
copy is implicit) and run the swap loop from length - 1 down to 1. -/
def shuffleArray {α : Type} (rand : Nat → Nat) (array : List α) : List α :=
  fyLoop rand (array.length - 1) array

/-- Model of the sampling idiom used at every randomized endpoint
(for example part_001 lines 258-260): shuffle, then slice(0, min(k, length)). -/
def sample {α : Type} (rand : Nat → Nat) (l : List α) (k : Nat) : List α :=
  let shuffled := shuffleArray rand l
  shuffled.take (min k shuffled.length)

/-- Placing the element at index j in front and writing x at index j is a
permutation of placing x in front. -/
theorem getCons_set_perm {α : Type} : ∀ (l : List α) (j : Nat) (hj : j < l.length) (x : α),
    List.Perm (l.get ⟨j, hj⟩ :: l.set j x) (x :: l)
  | a :: t, 0, _, x => List.Perm.swap x a t
  | a :: t, j + 1, hj, x => by
    have hj' : j < t.length := Nat.lt_of_succ_lt_succ hj
    show List.Perm (t.get ⟨j, hj'⟩ :: a :: t.set j x) (x :: a :: t)
    exact ((List.Perm.swap a (t.get ⟨j, hj'⟩) (t.set j x)).trans
      ((getCons_set_perm t j hj' x).cons a)).trans (List.Perm.swap x a t)

/-- Writing l[j] at position i and l[i] at position j permutes the list. -/
theorem set_set_perm {α : Type} : ∀ (l : List α) (i j : Nat) (hi : i < l.length)
    (hj : j < l.length),
    List.Perm ((l.set i (l.get ⟨j, hj⟩)).set j (l.get ⟨i, hi⟩)) l
  | [], _, _, hi, _ => absurd hi (Nat.not_lt_zero _)
  | _ :: _, 0, 0, _, _ => List.Perm.refl _
  | a :: t, 0, j + 1, _, hj => by
    have hj' : j < t.length := Nat.lt_of_succ_lt_succ hj
    show List.Perm (t.get ⟨j, hj'⟩ :: t.set j a) (a :: t)
    exact getCons_set_perm t j hj' a
  | a :: t, i + 1, 0, hi, _ => by
    have hi' : i < t.length := Nat.lt_of_succ_lt_succ hi
    show List.Perm (t.get ⟨i, hi'⟩ :: t.set i a) (a :: t)
    exact getCons_set_perm t i hi' a
  | a :: t, i + 1, j + 1, hi, hj => by
    have hi' : i < t.length := Nat.lt_of_succ_lt_succ hi
    have hj' : j < t.length := Nat.lt_of_succ_lt_succ hj
    show List.Perm (a :: (t.set i (t.get ⟨j, hj'⟩)).set j (t.get ⟨i, hi'⟩)) (a :: t)
    exact (set_set_perm t i j hi' hj').cons a

/-- Each swap step of the shuffle permutes the list. -/
theorem listSwap_perm {α : Type} (l : List α) (i j : Nat) :
    List.Perm (listSwap l i j) l := by
  unfold listSwap
  split
  next h => exact set_set_perm l i j h.1 h.2
  next => exact List.Perm.refl l

/-- The whole swap loop permutes the list. -/
theorem fyLoop_perm {α : Type} (rand : Nat → Nat) :
    ∀ (n : Nat) (l : List α), List.Perm (fyLoop rand n l) l
  | 0, _ => List.Perm.refl _
  | n + 1, l =>
    (fyLoop_perm rand n (listSwap l (n + 1) (rand (n + 1) % (n + 2)))).trans
      (listSwap_perm l (n + 1) (rand (n + 1) % (n + 2)))

/-- The shuffled list is a permutation of the input. -/
theorem shuffleArray_perm {α : Type} (rand : Nat → Nat) (l : List α) :
    List.Perm (shuffleArray rand l) l :=
  fyLoop_perm rand (l.length - 1) l

/-- Shuffling preserves the length. -/
theorem shuffleArray_length {α : Type} (rand : Nat → Nat) (l : List α) :
    (shuffleArray rand l).length = l.length :=
  (shuffleArray_perm rand l).length_eq

/-! ## Data model -/

/-- Exercise record, with the fields the source reads and writes
(part_001 lines 482-494 shows the full shape used for custom entries;
built-in entries from data.json carry the same fields). -/
structure Exercise where
  id : Nat
  name : String
  muscle : String
  difficulty : String
  description : String
  equipment : String
  sets : Nat
  reps : String
  duration : Nat
  calories : Nat
  custom : Bool
deriving DecidableEq

/-- One element of the exercises array submitted to POST /history. The
payload is accepted opaquely by the source; the only field it ever reads is
calories (part_001 line 824), via ex.calories || 0, so the model keeps just
that field, as an Option whose none covers both an absent and a falsy value. -/
structure HistItem where
  calories : Option Int
deriving DecidableEq

/-- Body of a POST /history request (part_001 line 808). The handler rejects
a request whose exercises field is missing or not an array before building
any entry, so only well-formed bodies reach this model. -/
structure HistReq where
  exercises : List HistItem
  workoutType : Option String
  duration : Option Nat
  notes : Option String
deriving DecidableEq

/-- Stored history entry (part_001 lines 816-825). The timestamp field is
wall-clock time, outside this embedding, and is omitted. -/
structure HistoryEntry where
  id : Nat
  workoutType : String
  exercises : List HistItem
  exerciseCount : Nat
  duration : Option Nat
  notes : String
  estimatedCalories : Int
deriving DecidableEq

/-- In-memory globals of the server (part_001 lines 11-14). The request-log
and statistics counters are out of scope of the claims and omitted. -/
structure ServerState where
  builtins : List Exercise
  customExercises : List Exercise
  nextCustomId : Nat
  favorites : List Nat
  workoutHistory : List HistoryEntry
deriving DecidableEq

/-- Model of getAllExercises (part_001 lines 133-135): the combined
built-in plus custom collection. -/
def getAllExercises (st : ServerState) : List Exercise :=
  st.builtins ++ st.customExercises

/-- ASCII lower-casing of one character, modelling what toLowerCase does on
the catalog values in play (all ASCII). -/
def jsCharLower (c : Char) : Char :=
  if 'A' ≤ c ∧ c ≤ 'Z' then Char.ofNat (c.toNat + 32) else c

/-- Model of String.prototype.toLowerCase restricted to ASCII input. -/
def jsToLower (s : String) : String := ⟨s.data.map jsCharLower⟩

/-- JS truthiness of an optional string parameter: the guards of the form
if (muscle) treat both an absent parameter and the empty string as false. -/
def strProvided (s : Option String) : Bool :=
  match s with
  | none => false
  | some v => !v.isEmpty

/-- Model of the idiom parseInt(x) || d on a query parameter: an absent or
non-numeric parameter (parseInt gives NaN) falls back to d, and so does a
parsed 0 because 0 is falsy. The Option argument is none for the
absent-or-non-numeric case and some v for a successfully parsed integer. -/
def jsCount (v : Option Int) (d : Int) : Int :=
  match v with
  | none => d
  | some x => if x = 0 then d else x

/-- Fixed muscle enumeration (part_001 line 214). -/
def validMuscles : List String := ["chest", "back", "legs", "shoulders", "arms", "core"]

/-- Fixed difficulty enumeration (part_001 line 223). -/
def validDifficulties : List String := ["beginner", "intermediate", "advanced"]

/-- Ids of push-tagged exercises (part_001 line 28). -/
def pushIds : List Nat := [1, 2, 3, 4, 5, 6, 7, 21, 23, 24, 25, 27, 29, 36, 37, 38]

/-- Ids of pull-tagged exercises (part_001 line 29). -/
def pullIds : List Nat := [8, 9, 10, 11, 12, 13, 14, 26, 28, 30, 40, 41, 42]

/-! ## GET /generate-workout (part_001 lines 210-270) -/

/-- Error outcomes of the generate-workout handler: the two 400 validation
responses and the 404 empty-result response. -/
inductive GenError where
  | invalidMuscle : GenError
  | invalidDifficulty : GenError
  | notFound : GenError
deriving DecidableEq

/-- Success payload of generate-workout (part_001 lines 262-269): the sampled
workout, its length, and the echoed filters (muscle || all). -/
structure GenResp where
  workout : List Exercise
  count : Nat
  muscleEcho : String
  difficultyEcho : String
deriving DecidableEq

/-- Candidate set of generate-workout (part_001 lines 234-247): the muscle
and difficulty filters, in that order, applied to data.exercises - the
built-in list only, not getAllExercises(). -/
def generateWorkoutCandidates (st : ServerState) (muscle difficulty : Option String) :
    List Exercise :=
  let fe1 :=
    if strProvided muscle then
      st.builtins.filter (fun ex => jsToLower ex.muscle == jsToLower (muscle.getD ""))
    else st.builtins
  if strProvided difficulty then
    fe1.filter (fun ex => jsToLower ex.difficulty == jsToLower (difficulty.getD ""))
  else fe1

/-- Model of the generate-workout handler: validate muscle and difficulty
when provided, clamp count to [1,10] with default 3, filter, 404 on an empty
candidate set, otherwise shuffle and slice(0, min(count, length)). -/
def generateWorkout (st : ServerState) (muscle difficulty : Option String)
    (count : Option Int) (rand : Nat → Nat) : Except GenError GenResp :=
  if strProvided muscle && !(validMuscles.contains (jsToLower (muscle.getD ""))) then
    Except.error GenError.invalidMuscle
  else if strProvided difficulty
      && !(validDifficulties.contains (jsToLower (difficulty.getD ""))) then
    Except.error GenError.invalidDifficulty
  else
    let exerciseCount := (min 10 (max 1 (jsCount count 3))).toNat
    let filteredExercises := generateWorkoutCandidates st muscle difficulty
    if filteredExercises.isEmpty then
      Except.error GenError.notFound
    else
      let shuffled := shuffleArray rand filteredExercises
      let workout := shuffled.take (min exerciseCount shuffled.length)
      Except.ok
        { workout := workout
          count := workout.length
          muscleEcho := if strProvided muscle then muscle.getD "" else "all"
          difficultyEcho := if strProvided difficulty then difficulty.getD "" else "all" }

/-! ## GET /exercises (part_001 lines 159-200) -/

/-- Boolean substring test on character lists, modelling
String.prototype.includes. -/
def containsSub (sub : List Char) (big : List Char) : Bool :=
  match big with
  | [] => sub.isEmpty
  | _ :: t => sub.isPrefixOf big || containsSub sub t

/-- Pagination block of the /exercises response (part_001 lines 193-198). -/
structure Pagination where
  currentPage : Int
  itemsPerPage : Int
  totalItems : Nat
  totalPages : Nat
deriving DecidableEq

/-- Response of GET /exercises: the page of exercises plus pagination data. -/
structure ExercisesResp where
  exercises : List Exercise
  pagination : Pagination
deriving DecidableEq

/-- Model of the /exercises handler. There is no validation of muscle or
difficulty in the source: whatever value arrives is handed straight to the
filters. Pagination: page defaults to 1, limit is clamped to [1,50] with
default 10, and slice(start, start+limit) is drop-then-take; Math.ceil of
the quotient is the rounded-up natural division. A present but non-numeric
page or limit (parseInt NaN, which the source propagates into slice) is not
modelled; the Option is none exactly when the parameter is absent. -/
def listExercises (builtins : List Exercise) (muscle difficulty equipment : Option String)
    (page limit : Option Int) : ExercisesResp :=
  let fe1 :=
    if strProvided muscle then
      builtins.filter (fun ex => jsToLower ex.muscle == jsToLower (muscle.getD ""))
    else builtins
  let fe2 :=
    if strProvided difficulty then
      fe1.filter (fun ex => jsToLower ex.difficulty == jsToLower (difficulty.getD ""))
    else fe1
  let fe3 :=
    if strProvided equipment then
      fe2.filter (fun ex =>
        containsSub (jsToLower (equipment.getD "")).data (jsToLower ex.equipment).data)
    else fe2
  let pageNum : Int := max 1 (page.getD 1)
  let limitNum : Int := min 50 (max 1 (limit.getD 10))
  let startIndex := ((pageNum - 1) * limitNum).toNat
  { exercises := (fe3.drop startIndex).take limitNum.toNat
    pagination :=
      { currentPage := pageNum
        itemsPerPage := limitNum
        totalItems := fe3.length
        totalPages := (fe3.length + limitNum.toNat - 1) / limitNum.toNat } }

/-- Helper for concrete test catalogs: an exercise with the given id, muscle,
difficulty and custom flag, and the default values of POST /exercises for
the remaining fields. -/
def mkExercise (id : Nat) (muscle difficulty : String) (custom : Bool) : Exercise :=
  { id := id, name := "Exercise", muscle := muscle, difficulty := difficulty
    description := "", equipment := "none", sets := 3, reps := "10-12"
    duration := 30, calories := 25, custom := custom }

/-! ## C1: Sampler length / sub-multiset / no-duplicates property -/

/-- Claim C1: for every list L and k, the Sampler (Fisher-Yates shuffle of a
copy of L followed by taking the first k elements) returns exactly
min(k, len L) elements, the result is a sub-multiset of L, and it has no
repeated element when L has none. -/
theorem sample_length_subperm_nodup {α : Type} (L : List α) (k : Nat) (rand : Nat → Nat) :
    (sample rand L k).length = min k L.length
    ∧ List.Subperm (sample rand L k) L
    ∧ (L.Nodup → (sample rand L k).Nodup) := by
  refine ⟨?_, ?_, ?_⟩
  · simp only [sample, List.length_take, shuffleArray_length]
    omega
  · exact (List.take_sublist _ _).subperm.trans (shuffleArray_perm rand L).subperm
  · intro h
    exact (((shuffleArray_perm rand L).symm.nodup h).sublist (List.take_sublist _ _))

/-- Witness for C1 at the concrete list [1, 2, 3] with k = 2. -/
theorem sample_length_subperm_nodup_witness :
    ([1, 2, 3] : List Nat).Nodup ∧ (sample (fun n => n) [1, 2, 3] 2).Nodup :=
  ⟨by decide, (sample_length_subperm_nodup [1, 2, 3] 2 (fun n => n)).2.2 (by decide)⟩

/-- Decidable equality of handler results, for concrete evaluation of the
endpoint models. -/
instance {ε α : Type} [DecidableEq ε] [DecidableEq α] : DecidableEq (Except ε α) := fun a b =>
  match a, b with
  | Except.error e₁, Except.error e₂ =>
    if h : e₁ = e₂ then Decidable.isTrue (by rw [h])
    else Decidable.isFalse (fun hc => h (Except.error.inj hc))
  | Except.error _, Except.ok _ => Decidable.isFalse (fun hc => Except.noConfusion hc)
  | Except.ok _, Except.error _ => Decidable.isFalse (fun hc => Except.noConfusion hc)
  | Except.ok a₁, Except.ok a₂ =>
    if h : a₁ = a₂ then Decidable.isTrue (by rw [h])
    else Decidable.isFalse (fun hc => h (Except.ok.inj hc))

/-- When the combined guard b && !(l.contains x) evaluates to false, the
corresponding proposition (the parameter is provided and invalid) fails. -/
theorem guard_false_not {b : Bool} {x : String} {l : List String}
    (h : (b && !(l.contains x)) = false) : ¬ (b = true ∧ ¬ x ∈ l) := by
  intro hc
  rw [hc.1] at h
  simp at h
  exact hc.2 h

/-! ## C8: behavior of the flat random workout operation -/

/-- Claim C8: generate-workout returns the invalid-muscle or
invalid-difficulty validation error when a provided parameter is outside its
enum, the not-found error when the candidate set is empty, and otherwise a
workout of min(count, candidates) exercises where count is clamped to [1,10]
with default 3. -/
theorem generateWorkout_behavior (st : ServerState) (muscle difficulty : Option String)
    (count : Option Int) (rand : Nat → Nat) :
    (strProvided muscle = true →
      validMuscles.contains (jsToLower (muscle.getD "")) = false →
      generateWorkout st muscle difficulty count rand = Except.error GenError.invalidMuscle)
    ∧ ((strProvided muscle && !(validMuscles.contains (jsToLower (muscle.getD "")))) = false →
      strProvided difficulty = true →
      validDifficulties.contains (jsToLower (difficulty.getD "")) = false →
      generateWorkout st muscle difficulty count rand
        = Except.error GenError.invalidDifficulty)
    ∧ ((strProvided muscle && !(validMuscles.contains (jsToLower (muscle.getD "")))) = false →
      (strProvided difficulty
          && !(validDifficulties.contains (jsToLower (difficulty.getD "")))) = false →
      generateWorkoutCandidates st muscle difficulty = [] →
      generateWorkout st muscle difficulty count rand = Except.error GenError.notFound)
    ∧ ((strProvided muscle && !(validMuscles.contains (jsToLower (muscle.getD "")))) = false →
      (strProvided difficulty
          && !(validDifficulties.contains (jsToLower (difficulty.getD "")))) = false →
      generateWorkoutCandidates st muscle difficulty ≠ [] →
      ∃ resp, generateWorkout st muscle difficulty count rand = Except.ok resp
        ∧ resp.workout.length
            = min ((min 10 (max 1 (jsCount count 3))).toNat)
                (generateWorkoutCandidates st muscle difficulty).length
        ∧ List.Subperm resp.workout (generateWorkoutCandidates st muscle difficulty))
    ∧ 1 ≤ (min 10 (max 1 (jsCount count 3))).toNat
    ∧ (min 10 (max 1 (jsCount count 3))).toNat ≤ 10
    ∧ (count = none → (min 10 (max 1 (jsCount count 3))).toNat = 3) := by
  refine ⟨?_, ?_, ?_, ?_, ?_, ?_, ?_⟩
  · intro h1 h2
    have h2' : ¬ jsToLower (muscle.getD "") ∈ validMuscles := by simpa using h2
    simp [generateWorkout, h1, h2']
  · intro hb1 h1 h2
    have h2' : ¬ jsToLower (difficulty.getD "") ∈ validDifficulties := by simpa using h2
    simp [generateWorkout, guard_false_not hb1, h1, h2']
  · intro hb1 hb2 hempty
    simp [generateWorkout, guard_false_not hb1, guard_false_not hb2, hempty]
  · intro hb1 hb2 hne
    have hem : (generateWorkoutCandidates st muscle difficulty).isEmpty = false := by
      simpa [List.isEmpty_iff] using hne
    simp only [generateWorkout, hb1, hb2, hem, Bool.false_eq_true, if_false]
    refine ⟨_, rfl, ?_, ?_⟩
    · simp only [List.length_take, shuffleArray_length]
      omega
    · exact (List.take_sublist _ _).subperm.trans
        (shuffleArray_perm rand (generateWorkoutCandidates st muscle difficulty)).subperm
  · omega
  · omega
  · intro h
    subst h
    decide

/-- State with three built-in chest/beginner exercises, for the C8 witness:
the scenario of the spec where count = 5 against exactly 3 matches returns
exactly 3 exercises. -/
def stGen : ServerState :=
  { builtins := [mkExercise 1 "chest" "beginner" false, mkExercise 2 "chest" "beginner" false,
      mkExercise 3 "chest" "beginner" false]
    customExercises := [], nextCustomId := 1000, favorites := [], workoutHistory := [] }

/-- Witness for C8: the invalid-muscle branch and the sampling branch at
concrete inputs. -/
theorem generateWorkout_behavior_witness :
    generateWorkout stGen (some "banana") none none (fun _ => 0)
      = Except.error GenError.invalidMuscle
    ∧ ∃ resp,
        generateWorkout stGen (some "chest") (some "beginner") (some 5) (fun _ => 0)
          = Except.ok resp
        ∧ resp.workout.length = 3 := by
  constructor
  · exact (generateWorkout_behavior stGen (some "banana") none none (fun _ => 0)).1
      (by decide) (by decide)
  · obtain ⟨resp, h1, h2, _⟩ :=
      (generateWorkout_behavior stGen (some "chest") (some "beginner") (some 5)
        (fun _ => 0)).2.2.2.1 (by decide) (by decide) (by decide)
    exact ⟨resp, h1, by rw [h2]; decide⟩

/-! ## C6: generate-workout and the combined catalog -/

/-- Custom chest/beginner exercise used to refute claim C6. -/
def chestCustom : Exercise := mkExercise 1000 "chest" "beginner" true

/-- State whose combined catalog consists of exactly one custom exercise. -/
def stCustomOnly : ServerState :=
  { builtins := [], customExercises := [chestCustom], nextCustomId := 1001
    favorites := [], workoutHistory := [] }

/-- Counterexample to claim C6: a custom exercise matching muscle = chest and
difficulty = beginner is in the combined catalog but not in the candidate set
of generate-workout, and the request even fails with not-found - the handler
filters data.exercises (built-ins only), not getAllExercises(). -/
theorem generateWorkout_ignores_custom_cex :
    chestCustom ∈ getAllExercises stCustomOnly
    ∧ chestCustom.muscle = "chest"
    ∧ chestCustom.difficulty = "beginner"
    ∧ ¬ chestCustom ∈ generateWorkoutCandidates stCustomOnly (some "chest") (some "beginner")
    ∧ generateWorkout stCustomOnly (some "chest") (some "beginner") none (fun _ => 0)
        = Except.error GenError.notFound := by
  decide

/-- Amended C6: the flat random workout filters only the built-in exercise
list; its candidate set is a sublist of builtins, and the whole handler is
unchanged under any change of the custom-exercise store (and the other
mutable state). -/
theorem generateWorkout_candidates_builtin_only (st : ServerState)
    (muscle difficulty : Option String) (count : Option Int) (rand : Nat → Nat)
    (cust : List Exercise) (nid : Nat) (fav : List Nat) (hist : List HistoryEntry) :
    List.Sublist (generateWorkoutCandidates st muscle difficulty) st.builtins
    ∧ generateWorkout (ServerState.mk st.builtins cust nid fav hist)
          muscle difficulty count rand
        = generateWorkout st muscle difficulty count rand := by
  constructor
  · unfold generateWorkoutCandidates
    cases hd : strProvided difficulty <;> cases hm : strProvided muscle <;> simp [hd, hm]
  · rfl

/-! ## C5: which operations validate the muscle / difficulty enums -/

/-- Built-in exercise whose muscle field is the invalid string banana, used
to show that the /exercises filter runs on unvalidated input. -/
def bananaExercise : Exercise := mkExercise 7 "banana" "beginner" false

/-- Counterexample to claim C5: GET /exercises accepts a muscle value outside
the fixed enumeration, signals no validation error, and hands the value to
the filter - which here even matches an exercise whose muscle field is that
invalid string. -/
theorem listExercises_no_validation_cex :
    (listExercises [bananaExercise] (some "banana") none none none none).exercises
      = [bananaExercise]
    ∧ (listExercises [bananaExercise] (some "banana") none none none none).pagination.totalItems
      = 1 := by
  decide

/-- Amended C5: generate-workout does validate a provided muscle against the
fixed enumeration and errors before filtering, but GET /exercises performs no
such validation: it filters with the supplied value no matter what it is and
always answers with an ordinary result page. -/
theorem muscle_validation_split (st : ServerState) (builtins : List Exercise) (m : String)
    (count : Option Int) (rand : Nat → Nat) (page limit : Option Int) :
    (m.isEmpty = false → validMuscles.contains (jsToLower m) = false →
      generateWorkout st (some m) none count rand = Except.error GenError.invalidMuscle)
    ∧ (m.isEmpty = false →
      (listExercises builtins (some m) none none page limit).pagination.totalItems
        = (builtins.filter (fun ex => jsToLower ex.muscle == jsToLower m)).length) := by
  constructor
  · intro h1 h2
    have h2' : ¬ jsToLower m ∈ validMuscles := by simpa using h2
    simp [generateWorkout, strProvided, h1, h2']
  · intro h1
    simp [listExercises, strProvided, h1]

/-- Witness for the amended C5 at concrete inputs. -/
theorem muscle_validation_split_witness :
    generateWorkout stCustomOnly (some "banana") none none (fun _ => 0)
      = Except.error GenError.invalidMuscle
    ∧ (listExercises [bananaExercise] (some "banana") none none none none).pagination.totalItems
      = ([bananaExercise].filter (fun ex => jsToLower ex.muscle == jsToLower "banana")).length :=
  ⟨(muscle_validation_split stCustomOnly [bananaExercise] "banana" none (fun _ => 0)
      none none).1 (by decide) (by decide),
   (muscle_validation_split stCustomOnly [bananaExercise] "banana" none (fun _ => 0)
      none none).2 (by decide)⟩

/-! ## GET /workout-plan (part_001 lines 279-368) -/

/-- One entry of a difficulty split: day archetype name and target muscles. -/
structure DayPlan where
  name : String
  muscles : List String
deriving DecidableEq

/-- One emitted day of the weekly plan (part_001 lines 336-358). -/
structure PlanDay where
  day : String
  type : String
  exercises : List Exercise
deriving DecidableEq

/-- Response of GET /workout-plan (part_001 lines 362-367). -/
structure PlanResp where
  plan : List PlanDay
  difficulty : String
  totalWorkoutDays : Nat
  totalExercises : Nat
deriving DecidableEq

/-- Error outcome of the workout-plan handler. -/
inductive PlanError where
  | invalidDifficulty : PlanError
deriving DecidableEq

/-- Fixed day-name table (part_001 line 325). -/
def dayNames : List String :=
  ["Monday", "Tuesday", "Wednesday", "Thursday", "Friday", "Saturday", "Sunday"]

/-- Difficulty-to-split lookup table (part_001 lines 295-323). -/
def workoutSplitsTable : List (String × List DayPlan) :=
  [("beginner",
    [⟨"Full Body A", ["chest", "back", "legs"]⟩, ⟨"Rest", []⟩,
     ⟨"Full Body B", ["shoulders", "arms", "core"]⟩, ⟨"Rest", []⟩,
     ⟨"Full Body A", ["chest", "back", "legs"]⟩, ⟨"Active Recovery", ["core"]⟩,
     ⟨"Rest", []⟩]),
   ("intermediate",
    [⟨"Push Day", ["chest", "shoulders"]⟩, ⟨"Pull Day", ["back", "arms"]⟩,
     ⟨"Leg Day", ["legs", "core"]⟩, ⟨"Rest", []⟩,
     ⟨"Upper Body", ["chest", "back", "shoulders"]⟩, ⟨"Lower Body", ["legs", "core"]⟩,
     ⟨"Rest", []⟩]),
   ("advanced",
    [⟨"Chest & Triceps", ["chest", "arms"]⟩, ⟨"Back & Biceps", ["back", "arms"]⟩,
     ⟨"Legs", ["legs"]⟩, ⟨"Shoulders & Core", ["shoulders", "core"]⟩,
     ⟨"Upper Power", ["chest", "back"]⟩, ⟨"Lower Power", ["legs", "core"]⟩,
     ⟨"Active Recovery", ["core", "shoulders"]⟩])]

/-- Model of the workout-plan handler: validate difficulty (default
intermediate), parse the days parameter into workoutDays - which the source
then never reads - and emit one entry per index 0..6, with the day name from
the fixed table and, on non-rest days, two sampled exercises per target
muscle (this filter compares muscles case-sensitively, as the source does
here). The random stream takes the day index and the muscle index. The
lookup getD fallbacks are unreachable: validation guarantees the split
exists and has 7 entries. -/
def workoutPlan (builtins : List Exercise) (difficulty : Option String) (days : Option Int)
    (rand : Nat → Nat → Nat → Nat) : Except PlanError PlanResp :=
  let difficultyStr := difficulty.getD "intermediate"
  if !(validDifficulties.contains (jsToLower difficultyStr)) then
    Except.error PlanError.invalidDifficulty
  else
    let workoutDays := min 7 (max 1 (jsCount days 5))
    let split := (workoutSplitsTable.lookup (jsToLower difficultyStr)).getD []
    let weeklyPlan := (List.range 7).map (fun i =>
      let dayPlan := split.getD i ⟨"", []⟩
      { day := dayNames.getD i ""
        type := dayPlan.name
        exercises :=
          if dayPlan.muscles.isEmpty then []
          else
            (dayPlan.muscles.enum.map (fun mu =>
              (shuffleArray (rand i mu.1)
                (builtins.filter (fun ex => ex.muscle == mu.2))).take 2)).join })
    Except.ok
      { plan := weeklyPlan
        difficulty := jsToLower difficultyStr
        totalWorkoutDays := (weeklyPlan.filter (fun d => !d.exercises.isEmpty)).length
        totalExercises := (weeklyPlan.map (fun d => d.exercises.length)).sum }

/-! ## C2: the weekly plan always emits 7 days, Monday through Sunday -/

/-- Claim C2: for every valid difficulty and every value of the days
parameter the weekly plan has exactly 7 entries in the fixed order Monday
through Sunday, and the days parameter changes nothing in the response. -/
theorem workoutPlan_seven_fixed_days (builtins : List Exercise) (difficulty : Option String)
    (days days₂ : Option Int) (rand : Nat → Nat → Nat → Nat) :
    workoutPlan builtins difficulty days rand = workoutPlan builtins difficulty days₂ rand
    ∧ (validDifficulties.contains (jsToLower (difficulty.getD "intermediate")) = true →
      ∃ resp, workoutPlan builtins difficulty days rand = Except.ok resp
        ∧ resp.plan.map PlanDay.day = dayNames
        ∧ resp.plan.length = 7) := by
  constructor
  · rfl
  · intro h
    simp only [workoutPlan, h, Bool.not_true, Bool.false_eq_true, if_false]
    exact ⟨_, rfl, rfl, rfl⟩

/-- Witness for C2: the default difficulty with two different days values. -/
theorem workoutPlan_seven_fixed_days_witness :
    workoutPlan [] none (some 2) (fun _ _ _ => 0)
      = workoutPlan [] none (some 9) (fun _ _ _ => 0)
    ∧ ∃ resp, workoutPlan [] none (some 2) (fun _ _ _ => 0) = Except.ok resp
        ∧ resp.plan.map PlanDay.day = dayNames
        ∧ resp.plan.length = 7 :=
  ⟨(workoutPlan_seven_fixed_days [] none (some 2) (some 9) (fun _ _ _ => 0)).1,
   (workoutPlan_seven_fixed_days [] none (some 2) (some 9) (fun _ _ _ => 0)).2 (by decide)⟩

/-! ## GET /superset (part_001 lines 623-680) -/

/-- One superset pair as emitted by the handler. The source additionally
spreads a constant per-column type tag (or the picked muscle) into the JSON;
those annotations carry no information beyond the branch taken and are not
part of the pair model. -/
structure SupersetPair where
  setNumber : Nat
  exercise1 : Exercise
  exercise2 : Exercise
deriving DecidableEq

/-- Model of the push-pull branch (part_001 lines 631-644): filter the
push-tagged and pull-tagged subsets, shuffle each, then loop
for i < setCount and i < pushLength and i < pullLength reading position i of
both shuffled lists - which is index-wise zipping truncated at setCount. -/
def supersetPushPull (allExercises : List Exercise) (sets : Option Int)
    (randPush randPull : Nat → Nat) : List SupersetPair :=
  let setCount := (min 5 (max 1 (jsCount sets 3))).toNat
  let pushExercises := allExercises.filter (fun ex => pushIds.contains ex.id)
  let pullExercises := allExercises.filter (fun ex => pullIds.contains ex.id)
  let shuffledPush := shuffleArray randPush pushExercises
  let shuffledPull := shuffleArray randPull pullExercises
  ((shuffledPush.zip shuffledPull).take setCount).enum.map
    (fun p => { setNumber := p.1 + 1, exercise1 := p.2.1, exercise2 := p.2.2 })

/-- Consecutive pairing loop of the same-muscle branch: the source iterates
i = 0, 2, 4, ... while i < setCount * 2 and i + 1 < length, pairing elements
i and i + 1; so each iteration consumes two list elements and one unit of a
budget of setCount pairs, and a final unpaired element is dropped. -/
def sameMusclePairs {α : Type} : Nat → List α → List (α × α)
  | n + 1, a :: b :: rest => (a, b) :: sameMusclePairs n rest
  | _, _ => []

/-- Model of the same-muscle branch (part_001 lines 659-672): pick the muscle
muscles[floor(random * 6)] - modelled as index randMuscle % 6 - shuffle its
exercises (compared case-sensitively here, as in the source) and pair
consecutive elements; setNumber is floor(i / 2) + 1, i.e. the pair index
plus one. -/
def supersetSameMuscle (allExercises : List Exercise) (sets : Option Int)
    (randMuscle : Nat) (rand : Nat → Nat) : List SupersetPair × String :=
  let setCount := (min 5 (max 1 (jsCount sets 3))).toNat
  let randomMuscle := validMuscles.getD (randMuscle % validMuscles.length) ""
  let muscleExercises :=
    shuffleArray rand (allExercises.filter (fun ex => ex.muscle == randomMuscle))
  ((sameMusclePairs setCount muscleExercises).enum.map
      (fun p => { setNumber := p.1 + 1, exercise1 := p.2.1, exercise2 := p.2.2 }),
   randomMuscle)

/-- Modelled from the claim wording of C3: pair consecutive elements
(indices 0 and 1, 2 and 3, ...), dropping a final unpaired leftover. -/
def pairConsecutive {α : Type} : List α → List (α × α)
  | a :: b :: rest => (a, b) :: pairConsecutive rest
  | _ => []

/-- The pairing loop is the consecutive pairing truncated at the budget. -/
theorem sameMusclePairs_eq_take {α : Type} :
    ∀ (n : Nat) (l : List α), sameMusclePairs n l = (pairConsecutive l).take n
  | 0, [] => rfl
  | 0, [_] => rfl
  | 0, _ :: _ :: _ => rfl
  | _ + 1, [] => rfl
  | _ + 1, [_] => rfl
  | n + 1, a :: b :: r => by
    simp only [sameMusclePairs, pairConsecutive, List.take_succ_cons]
    exact congrArg _ (sameMusclePairs_eq_take n r)

/-- Consecutive pairing produces floor(length / 2) pairs. -/
theorem pairConsecutive_length {α : Type} :
    ∀ (l : List α), (pairConsecutive l).length = l.length / 2
  | [] => by
    show (0 : Nat) = 0 / 2
    rw [Nat.zero_div]
  | [_] => by
    show (0 : Nat) = 1 / 2
    decide
  | _ :: _ :: r => by
    simp only [pairConsecutive, List.length_cons, pairConsecutive_length r]
    omega

/-- First components of a truncated zip form a sublist of the left input. -/
theorem zipTake_map_fst_sublist {α β : Type} :
    ∀ (n : Nat) (l : List α) (m : List β),
      List.Sublist (((l.zip m).take n).map Prod.fst) l
  | _, [], _ => by simp
  | _, _ :: _, [] => by simp
  | 0, _ :: _, _ :: _ => by simp
  | n + 1, a :: t, _ :: s => by
    simp only [List.zip_cons_cons, List.take_succ_cons, List.map_cons]
    exact (zipTake_map_fst_sublist n t s).cons₂ a

/-- Second components of a truncated zip form a sublist of the right input. -/
theorem zipTake_map_snd_sublist {α β : Type} :
    ∀ (n : Nat) (l : List α) (m : List β),
      List.Sublist (((l.zip m).take n).map Prod.snd) m
  | _, [], _ => by simp
  | _, _ :: _, [] => by simp
  | 0, _ :: _, _ :: _ => by simp
  | n + 1, _ :: t, b :: s => by
    simp only [List.zip_cons_cons, List.take_succ_cons, List.map_cons]
    exact (zipTake_map_snd_sublist n t s).cons₂ b

/-- Projecting the first exercise out of the numbered pairs recovers the
first components of the underlying pair list. -/
theorem map_exercise1_mk (base : List (Exercise × Exercise)) :
    ((base.enum.map (fun p => SupersetPair.mk (p.1 + 1) p.2.1 p.2.2)).map
        (fun q => q.exercise1))
      = base.map Prod.fst := by
  rw [List.map_map]
  rw [show ((fun q : SupersetPair => q.exercise1)
      ∘ fun p : Nat × (Exercise × Exercise) => SupersetPair.mk (p.1 + 1) p.2.1 p.2.2)
    = (Prod.fst ∘ (Prod.snd : Nat × (Exercise × Exercise) → Exercise × Exercise)) from rfl]
  rw [← List.map_map, List.enum_map_snd]

/-- Projecting the second exercise out of the numbered pairs recovers the
second components of the underlying pair list. -/
theorem map_exercise2_mk (base : List (Exercise × Exercise)) :
    ((base.enum.map (fun p => SupersetPair.mk (p.1 + 1) p.2.1 p.2.2)).map
        (fun q => q.exercise2))
      = base.map Prod.snd := by
  rw [List.map_map]
  rw [show ((fun q : SupersetPair => q.exercise2)
      ∘ fun p : Nat × (Exercise × Exercise) => SupersetPair.mk (p.1 + 1) p.2.1 p.2.2)
    = (Prod.snd ∘ (Prod.snd : Nat × (Exercise × Exercise) → Exercise × Exercise)) from rfl]
  rw [← List.map_map, List.enum_map_snd]

/-- Projecting both exercises out of the numbered pairs recovers the
underlying pair list. -/
theorem map_pair_mk (base : List (Exercise × Exercise)) :
    ((base.enum.map (fun p => SupersetPair.mk (p.1 + 1) p.2.1 p.2.2)).map
        (fun q => (q.exercise1, q.exercise2)))
      = base := by
  rw [List.map_map]
  rw [show ((fun q : SupersetPair => (q.exercise1, q.exercise2))
      ∘ fun p : Nat × (Exercise × Exercise) => SupersetPair.mk (p.1 + 1) p.2.1 p.2.2)
    = (Prod.snd : Nat × (Exercise × Exercise) → Exercise × Exercise) from rfl]
  rw [List.enum_map_snd]

/-! ## C4: push-pull supersets are bounded and never recycle -/

/-- Claim C4: the push-pull superset operation returns exactly
min(setCount, pushCount, pullCount) pairs - in particular never more - and,
when the filtered push (respectively pull) subset has no duplicates, no
exercise appears in two pairs on that side. -/
theorem supersetPushPull_spec (all : List Exercise) (sets : Option Int)
    (randPush randPull : Nat → Nat) :
    (supersetPushPull all sets randPush randPull).length
        = min ((min 5 (max 1 (jsCount sets 3))).toNat)
            (min (all.filter (fun ex => pushIds.contains ex.id)).length
              (all.filter (fun ex => pullIds.contains ex.id)).length)
    ∧ ((all.filter (fun ex => pushIds.contains ex.id)).Nodup →
        ((supersetPushPull all sets randPush randPull).map
          (fun p => p.exercise1)).Nodup)
    ∧ ((all.filter (fun ex => pullIds.contains ex.id)).Nodup →
        ((supersetPushPull all sets randPush randPull).map
          (fun p => p.exercise2)).Nodup) := by
  refine ⟨?_, ?_, ?_⟩
  · simp only [supersetPushPull, List.length_map, List.enum_length, List.length_take,
      List.length_zip, shuffleArray_length]
  · intro h
    simp only [supersetPushPull]
    rw [map_exercise1_mk]
    exact ((shuffleArray_perm randPush _).symm.nodup h).sublist
      (zipTake_map_fst_sublist _ _ _)
  · intro h
    simp only [supersetPushPull]
    rw [map_exercise2_mk]
    exact ((shuffleArray_perm randPull _).symm.nodup h).sublist
      (zipTake_map_snd_sublist _ _ _)

/-- Two-exercise catalog with one push-tagged and one pull-tagged id, for
the C4 witness. -/
def ppCatalog : List Exercise :=
  [mkExercise 1 "chest" "beginner" false, mkExercise 8 "back" "beginner" false]

/-- Witness for C4 at a concrete catalog. -/
theorem supersetPushPull_spec_witness :
    ((supersetPushPull ppCatalog (some 2) (fun _ => 0) (fun _ => 0)).map
        (fun p => p.exercise1)).Nodup
    ∧ ((supersetPushPull ppCatalog (some 2) (fun _ => 0) (fun _ => 0)).map
        (fun p => p.exercise2)).Nodup :=
  ⟨(supersetPushPull_spec ppCatalog (some 2) (fun _ => 0) (fun _ => 0)).2.1 (by decide),
   (supersetPushPull_spec ppCatalog (some 2) (fun _ => 0) (fun _ => 0)).2.2 (by decide)⟩

/-! ## C3: same-muscle supersets - the pair cap is setCount, not 2 * setCount -/

/-- Six chest exercises, enough to expose the pair cap of the same-muscle
branch. -/
def sixChest : List Exercise :=
  [mkExercise 1 "chest" "beginner" false, mkExercise 2 "chest" "beginner" false,
   mkExercise 3 "chest" "beginner" false, mkExercise 4 "chest" "beginner" false,
   mkExercise 5 "chest" "beginner" false, mkExercise 6 "chest" "beginner" false]

/-- Counterexample to claim C3: with setCount = 2 and six exercises of the
picked muscle, consecutive pairing up to 2 * setCount pairs would give
min(4, 3) = 3 pairs, but the operation returns only 2 - the loop bound
setCount * 2 counts element indices (two per pair), so the cap on pairs is
setCount itself. -/
theorem supersetSameMuscle_cex :
    (supersetSameMuscle sixChest (some 2) 0 (fun _ => 0)).1.length = 2
    ∧ ¬ (supersetSameMuscle sixChest (some 2) 0 (fun _ => 0)).1.length
        = ((pairConsecutive (shuffleArray (fun _ => 0) (sixChest.filter (fun ex =>
            ex.muscle == "chest")))).take (2 * 2)).length
    ∧ ((pairConsecutive (shuffleArray (fun _ => 0) (sixChest.filter (fun ex =>
        ex.muscle == "chest")))).take (2 * 2)).length = 3 := by
  decide

/-- Amended C3: the same-muscle superset operation picks the muscle indexed
by the random draw, shuffles its exercises, and pairs consecutive elements
(indices 0 and 1, 2 and 3, ...) up to setCount pairs - not 2 * setCount -
dropping a final unpaired leftover; the pair count is
min(setCount, floor(candidates / 2)). -/
theorem supersetSameMuscle_pairs (all : List Exercise) (sets : Option Int)
    (randMuscle : Nat) (rand : Nat → Nat) :
    (supersetSameMuscle all sets randMuscle rand).2
        = validMuscles.getD (randMuscle % validMuscles.length) ""
    ∧ (supersetSameMuscle all sets randMuscle rand).1.length
        = min ((min 5 (max 1 (jsCount sets 3))).toNat)
            ((all.filter (fun ex =>
              ex.muscle == validMuscles.getD (randMuscle % validMuscles.length) "")).length / 2)
    ∧ (supersetSameMuscle all sets randMuscle rand).1.map
          (fun p => (p.exercise1, p.exercise2))
        = (pairConsecutive (shuffleArray rand (all.filter (fun ex =>
            ex.muscle == validMuscles.getD (randMuscle % validMuscles.length) "")))).take
            ((min 5 (max 1 (jsCount sets 3))).toNat) := by
  refine ⟨rfl, ?_, ?_⟩
  · simp only [supersetSameMuscle, List.length_map, List.enum_length,
      sameMusclePairs_eq_take, List.length_take, pairConsecutive_length, shuffleArray_length]
  · simp only [supersetSameMuscle]
    rw [map_pair_mk, sameMusclePairs_eq_take]

/-! ## POST /favorites/:id (part_001 lines 755-772) -/

/-- Outcome of an add-to-favorites request: the 404 unknown-exercise error,
the 400 duplicate error, or the 201 success carrying the exercise. -/
inductive FavResp where
  | notFoundErr : FavResp
  | alreadyErr : FavResp
  | added : Exercise → FavResp
deriving DecidableEq

/-- Model of the add-to-favorites handler: look the id up in the combined
catalog (404 when absent), reject an id that is already favorited (400),
otherwise record the id. The favorites Set is modelled as a list to which
ids are only ever appended after the membership check, so it never holds
duplicates. On the error paths the state is returned unchanged. -/
def postFavorite (st : ServerState) (idv : Nat) : FavResp × ServerState :=
  match (getAllExercises st).find? (fun ex => ex.id == idv) with
  | none => (FavResp.notFoundErr, st)
  | some ex =>
    if st.favorites.contains idv then (FavResp.alreadyErr, st)
    else (FavResp.added ex, { st with favorites := st.favorites ++ [idv] })

/-! ## C9: duplicate favorite adds are rejected without changing the set -/

/-- Claim C9: when an add to favorites succeeds, repeating it for the same id
reports the duplicate error and leaves the whole favorites set unchanged, and
the successful add implies the id belonged to the combined catalog. -/
theorem favorites_duplicate_add (st : ServerState) (idv : Nat) (ex : Exercise)
    (st' : ServerState) (h : postFavorite st idv = (FavResp.added ex, st')) :
    (postFavorite st' idv).1 = FavResp.alreadyErr
    ∧ (postFavorite st' idv).2 = st'
    ∧ ex ∈ getAllExercises st ∧ ex.id = idv := by
  unfold postFavorite at h
  split at h
  · simp at h
  · rename_i e hf
    split at h
    · simp at h
    · rw [Prod.mk.injEq] at h
      obtain ⟨hex, hst⟩ := h
      injection hex with hex
      subst hex
      have hkey : postFavorite st' idv = (FavResp.alreadyErr, st') := by
        subst hst
        simp only [postFavorite, getAllExercises] at hf ⊢
        rw [hf]
        simp
      refine ⟨?_, ?_, List.mem_of_find?_eq_some hf, ?_⟩
      · rw [hkey]
      · rw [hkey]
      · have := List.find?_some hf
        simpa using this

/-- Concrete single-exercise state for the C9 witness. -/
def stFav : ServerState :=
  { builtins := [mkExercise 1 "chest" "beginner" false], customExercises := []
    nextCustomId := 1000, favorites := [], workoutHistory := [] }

/-- State after the first successful favorite add in the C9 witness. -/
def stFav' : ServerState :=
  { builtins := [mkExercise 1 "chest" "beginner" false], customExercises := []
    nextCustomId := 1000, favorites := [1], workoutHistory := [] }

/-- Witness for C9: add id 1 twice against a one-exercise catalog. -/
theorem favorites_duplicate_add_witness :
    (postFavorite stFav' 1).1 = FavResp.alreadyErr
    ∧ (postFavorite stFav' 1).2 = stFav'
    ∧ mkExercise 1 "chest" "beginner" false ∈ getAllExercises stFav
    ∧ (mkExercise 1 "chest" "beginner" false).id = 1 :=
  favorites_duplicate_add stFav 1 (mkExercise 1 "chest" "beginner" false) stFav' (by decide)

/-! ## POST /history (part_001 lines 807-837) -/

/-- Entry construction (part_001 lines 816-825): the id is the current
history length plus one, workoutType and notes default when falsy (the
Option none covers the absent and falsy cases, as elsewhere), and the
calorie total sums ex.calories || 0 over the submitted list. -/
def mkHistoryEntry (workoutHistory : List HistoryEntry) (req : HistReq) : HistoryEntry :=
  { id := workoutHistory.length + 1
    workoutType := req.workoutType.getD "custom"
    exercises := req.exercises
    exerciseCount := req.exercises.length
    duration := req.duration
    notes := req.notes.getD ""
    estimatedCalories := (req.exercises.map (fun ex => ex.calories.getD 0)).sum }

/-- Model of the append performed by the history handler: push the new
entry, then shift off the front when the length exceeds 100. -/
def postHistory (workoutHistory : List HistoryEntry) (req : HistReq) : List HistoryEntry :=
  let h2 := workoutHistory ++ [mkHistoryEntry workoutHistory req]
  if 100 < h2.length then h2.tail else h2

/-- A sequence of history appends starting from the empty log. -/
def appendHistoryAll (reqs : List HistReq) : List HistoryEntry :=
  reqs.foldl postHistory []

/-- Invariant of the history log: after any sequence of appends the length is
min(number of appends, 100) and the stored payloads are exactly those of the
most recent 100 requests, in order. -/
theorem appendHistoryAll_spec : ∀ (reqs : List HistReq),
    (appendHistoryAll reqs).length = min reqs.length 100
    ∧ (appendHistoryAll reqs).map HistoryEntry.exercises
        = (reqs.map HistReq.exercises).drop (reqs.length - 100) := by
  intro reqs
  induction reqs using List.reverseRecOn with
  | nil => simp [appendHistoryAll]
  | append_singleton xs x ih =>
    obtain ⟨ihlen, ihmap⟩ := ih
    have hstep : appendHistoryAll (xs ++ [x]) = postHistory (appendHistoryAll xs) x := by
      simp [appendHistoryAll, List.foldl_append]
    rw [hstep]
    by_cases hlt : xs.length < 100
    · have hlen : (appendHistoryAll xs).length = xs.length := by
        rw [ihlen]; omega
      have hcond : ¬ (100 <
          ((appendHistoryAll xs) ++ [mkHistoryEntry (appendHistoryAll xs) x]).length) := by
        simp [hlen]; omega
      constructor
      · simp only [postHistory]
        rw [if_neg hcond]
        simp only [List.length_append, List.length_cons, List.length_nil, hlen]
        omega
      · simp only [postHistory]
        rw [if_neg hcond]
        rw [List.map_append, ihmap]
        have hd1 : xs.length - 100 = 0 := by omega
        have hd2 : (xs ++ [x]).length - 100 = 0 := by
          simp only [List.length_append, List.length_cons, List.length_nil]; omega
        rw [hd1, hd2]
        simp [mkHistoryEntry]
    · have hlen : (appendHistoryAll xs).length = 100 := by
        rw [ihlen]; omega
      have hne : appendHistoryAll xs ≠ [] := by
        intro hnil
        rw [hnil] at hlen
        simp at hlen
      have hcond : 100 <
          ((appendHistoryAll xs) ++ [mkHistoryEntry (appendHistoryAll xs) x]).length := by
        simp [hlen]
      constructor
      · simp only [postHistory]
        rw [if_pos hcond]
        simp only [List.length_tail, List.length_append, List.length_cons,
          List.length_nil, hlen]
        omega
      · simp only [postHistory]
        rw [if_pos hcond]
        have htail : ((appendHistoryAll xs) ++ [mkHistoryEntry (appendHistoryAll xs) x]).tail
            = (appendHistoryAll xs).tail ++ [mkHistoryEntry (appendHistoryAll xs) x] := by
          cases hA : appendHistoryAll xs with
          | nil => exact absurd hA hne
          | cons y ys => simp
        rw [htail, List.map_append, List.map_tail, ihmap, List.tail_drop]
        have hle : xs.length - 100 + 1 ≤ (List.map HistReq.exercises xs).length := by
          simp only [List.length_map]; omega
        have harith : (xs ++ [x]).length - 100 = xs.length - 100 + 1 := by
          simp only [List.length_append, List.length_cons, List.length_nil]; omega
        rw [List.map_append, harith, List.drop_append_of_le_length hle]
        simp [mkHistoryEntry]

/-! ## C7: the history log caps at 100 entries with FIFO eviction -/

/-- Claim C7: after any sequence of appends the history holds at most 100
entries; an append performed on a full log of 100 entries drops the oldest
entry and appends the new one at the end; and after 150 sequential appends
exactly the payloads of the most recent 100 requests remain, in order. -/
theorem history_capacity (reqs : List HistReq) (h : List HistoryEntry) (r : HistReq) :
    (appendHistoryAll reqs).length ≤ 100
    ∧ (h.length = 100 → postHistory h r = h.tail ++ [mkHistoryEntry h r])
    ∧ (reqs.length = 150 →
        (appendHistoryAll reqs).map HistoryEntry.exercises
          = (reqs.map HistReq.exercises).drop 50) := by
  refine ⟨?_, ?_, ?_⟩
  · rw [(appendHistoryAll_spec reqs).1]
    omega
  · intro hl
    have hcond : 100 < (h ++ [mkHistoryEntry h r]).length := by simp [hl]
    simp only [postHistory]
    rw [if_pos hcond]
    cases h with
    | nil => simp at hl
    | cons y ys => simp
  · intro hl
    rw [(appendHistoryAll_spec reqs).2, hl]

/-- Trivial history request used in concrete history computations. -/
def histReq0 : HistReq :=
  { exercises := [], workoutType := none, duration := none, notes := none }

/-- Witness for C7: 150 identical appends keep the most recent 100, and an
append on the resulting full log evicts the front. -/
theorem history_capacity_witness :
    (appendHistoryAll (List.replicate 150 histReq0)).length ≤ 100
    ∧ postHistory (appendHistoryAll (List.replicate 100 histReq0)) histReq0
        = (appendHistoryAll (List.replicate 100 histReq0)).tail
          ++ [mkHistoryEntry (appendHistoryAll (List.replicate 100 histReq0)) histReq0]
    ∧ (appendHistoryAll (List.replicate 150 histReq0)).map HistoryEntry.exercises
        = ((List.replicate 150 histReq0).map HistReq.exercises).drop 50 := by
  refine ⟨(history_capacity (List.replicate 150 histReq0) [] histReq0).1, ?_, ?_⟩
  · exact (history_capacity (List.replicate 150 histReq0)
      (appendHistoryAll (List.replicate 100 histReq0)) histReq0).2.1
      (by rw [(appendHistoryAll_spec (List.replicate 100 histReq0)).1]; simp)
  · exact (history_capacity (List.replicate 150 histReq0) [] histReq0).2.2 (by simp)

/-! ## C10: history entry ids repeat once the cap is reached -/

set_option maxRecDepth 100000 in
/-- Claim C10: every appended entry gets id = length-before-append + 1, so on
a full log of 100 entries every further entry gets id 101, and ids are not
unique across the lifetime of the log (after 102 appends the id list holds
101 twice). -/
theorem history_entry_ids (h : List HistoryEntry) (r : HistReq) :
    (mkHistoryEntry h r).id = h.length + 1
    ∧ (h.length = 100 → (mkHistoryEntry h r).id = 101)
    ∧ ¬ ((appendHistoryAll (List.replicate 102 histReq0)).map HistoryEntry.id).Nodup := by
  refine ⟨rfl, ?_, ?_⟩
  · intro hl
    simp [mkHistoryEntry, hl]
  · decide

/-- Witness for C10: the append on a concrete full log receives id 101. -/
theorem history_entry_ids_witness :
    (mkHistoryEntry (appendHistoryAll (List.replicate 100 histReq0)) histReq0).id = 101 :=
  (history_entry_ids (appendHistoryAll (List.replicate 100 histReq0)) histReq0).2.1
    (by rw [(appendHistoryAll_spec (List.replicate 100 histReq0)).1]; simp)

end WorkoutApi
